import Mathlib

/-!
# Verification of the statuspageio envelope HTTP client

Shallow embedding of `statuspageio/http_client.py` and `statuspageio/errors.py`.
The client composes URLs, builds headers, wraps request bodies in a JSON
envelope, unwraps response envelopes, and classifies HTTP error responses
into a typed error taxonomy.

Python values flowing through the client are JSON trees; `requests` is an
external transport, modelled as a function from the built request to a
response.  Python exceptions become an `Except` error channel.
-/

namespace StatusPage

/-- JSON values (the result of Python's `json` decoding).  Numbers are
modelled as integers: no claim depends on float semantics. -/
inductive Json where
  | null
  | jbool (b : Bool)
  | jnum (n : Int)
  | jstr (s : String)
  | jarr (xs : List Json)
  | jobj (fields : List (String × Json))


/-- Hex digit for `\u00XX` escapes. -/
def hexDigit (n : Nat) : Char :=
  if n < 10 then Char.ofNat (48 + n) else Char.ofNat (87 + n)

/-- Escape one character as Python's `json.dumps` does for ASCII input
(`ensure_ascii` escaping of non-ASCII characters is not modelled; every
string the claims touch is ASCII). -/
def escapeChar (c : Char) : String :=
  if c = '"' then "\\\""
  else if c = '\\' then "\\\\"
  else if c = '\n' then "\\n"
  else if c = '\t' then "\\t"
  else if c = '\r' then "\\r"
  else if c = '\x08' then "\\b"
  else if c = '\x0c' then "\\f"
  else if c.toNat < 0x20 then
    "\\u00" ++ String.singleton (hexDigit (c.toNat / 16))
      ++ String.singleton (hexDigit (c.toNat % 16))
  else String.singleton c

/-- Serialize a string literal as `json.dumps` does. -/
def dumpString (s : String) : String :=
  "\"" ++ String.join (s.data.map escapeChar) ++ "\""

mutual

/-- Model of Python's `json.dumps` with its default separators
`(', ', ': ')`. -/
def Json.dumps : Json → String
  | .null => "null"
  | .jbool b => if b then "true" else "false"
  | .jnum n => toString n
  | .jstr s => dumpString s
  | .jarr xs => "[" ++ String.intercalate ", " (dumpsList xs) ++ "]"
  | .jobj fs => "\x7b" ++ String.intercalate ", " (dumpsFields fs) ++ "\x7d"

/-- Serialize each element of a JSON array. -/
def dumpsList : List Json → List String
  | [] => []
  | x :: xs => Json.dumps x :: dumpsList xs

/-- Serialize each `key: value` pair of a JSON object. -/
def dumpsFields : List (String × Json) → List String
  | [] => []
  | kv :: fs => (dumpString kv.1 ++ ": " ++ Json.dumps kv.2) :: dumpsFields fs

end

/-- Python `dict` lookup on an association list (`d[k]` / `k in d`):
first binding for the key wins. -/
def dictLookup {α : Type} (d : List (String × α)) (k : String) : Option α :=
  match d with
  | [] => none
  | kv :: rest => if kv.1 = k then some kv.2 else dictLookup rest k

/-- Python `d[k] = v`: replace the binding in place when the key is
present, append it otherwise. -/
def dictInsert {α : Type} (d : List (String × α)) (k : String) (v : α) :
    List (String × α) :=
  if d.any (fun kv => kv.1 = k) then
    d.map (fun kv => if kv.1 = k then (k, v) else kv)
  else d ++ [(k, v)]

/-- Python `d.update(u)`: assign every binding of `u` into `d` in order. -/
def dictUpdate {α : Type} (d u : List (String × α)) : List (String × α) :=
  u.foldl (fun acc kv => dictInsert acc kv.1 kv.2) d

/-- The keys of an association list. -/
def dictKeys {α : Type} (d : List (String × α)) : List String :=
  d.map Prod.fst

/-- A `dotmap.DotMap` built from a decoded JSON object: a dynamically
accessible mapping carrying the object's fields in order. -/
structure DotMap where
  fields : List (String × Json)


/-- Python exceptions the client can raise.  `UnknownHttpError (some (c, t))`
is the `Exception('Unknown HTTP error response. Json expected. HTTP response
code=... HTTP response body=...')` carrying status code `c` and body text `t`
in its message; `UnknownHttpError none` is the final
`Exception('Unknown HTTP error response')`, which carries neither. -/
inductive PyError where
  | ResourceError (http_status : Nat) (errors : Json)
  | RateLimitError
  | RequestError (http_status : Nat) (errors : Json)
  | ServerError (http_status : Nat) (errors : Json)
  | UnknownHttpError (payload : Option (Nat × String))
  | KeyError (key : String)
  | JSONDecodeError
  | TypeError
  | ConfigurationError


/-- `DotMap(j)`: builds a mapping from a JSON object; a non-mapping
argument is a dynamic failure, collapsed here into one modelled
`TypeError` (the envelope convention never produces that shape). -/
def DotMap.ofJson : Json → Except PyError DotMap
  | .jobj fs => .ok ⟨fs⟩
  | _ => .error .TypeError

/-- The body a successful call returns: a single mapping, an ordered
sequence of mappings (unwrapped `items`), or the raw non-JSON content. -/
inductive ResponseBody where
  | dotmap (m : DotMap)
  | dotmaps (ms : List DotMap)
  | content (text : String)


/-- The client configuration consumed by `HttpClient` (`config.base_url`,
`config.api_key`, `config.timeout`, `config.verify_ssl`). -/
structure Configuration where
  base_url : String
  api_key : String
  timeout : Int
  verify_ssl : Bool


/-- The keyword options `request` recognises.  `headers = some h` models a
caller-supplied `dict` of headers (`'headers' in kwargs` and the
`isinstance(..., dict)` check both passing); `raw` models `kwargs['raw']`
coerced by `bool(...)`; `container = none` models `'container' not in
kwargs`, so that `kwargs['container']` raises `KeyError`. -/
structure Kwargs where
  headers : Option (List (String × String))
  raw : Option Bool
  container : Option String


/-- The argument record handed to `requests.request(method, url, ...)`. -/
structure HttpRequest where
  method : String
  url : String
  params : Option (List (String × String))
  data : Option String
  headers : List (String × String)
  timeout : Int
  verify : Bool


/-- A transport response.  `jsonBody` is the outcome of `resp.json()`:
`some j` when the body text decodes to `j`, `none` when decoding raises.
`text` serves as both `resp.text` and `resp.content`. -/
structure HttpResponse where
  status_code : Nat
  headers : List (String × String)
  jsonBody : Option Json
  text : String


/-- `HttpClient.API_VERSION`. -/
def API_VERSION : String := "/v1"

/-- `HttpClient.wrap_envelope(container, body)`:
`return {container: body}`. -/
def wrap_envelope (container : String) (body : Json) : Json :=
  .jobj [(container, body)]

/-- The list comprehension `[DotMap(item) for item in items]`: convert the
elements in order, propagating the first failure. -/
def dotmapList : List Json → Except PyError (List DotMap)
  | [] => .ok []
  | j :: rest => do
    let m ← DotMap.ofJson j
    let ms ← dotmapList rest
    return m :: ms

/-- The fields of a JSON object (and `[]` on the other constructors; only
ever used under a hypothesis that the value is an object). -/
def Json.objFields : Json → List (String × Json)
  | .jobj fs => fs
  | _ => []

/-- `HttpClient.unwrap_envelope(body)`:
`[DotMap(item) for item in body['items']] if 'items' in body else DotMap(body)`.
A non-object body, or an `'items'` value that is not an array of objects,
is a dynamic failure, collapsed into the modelled `TypeError`. -/
def unwrap_envelope (body : Json) : Except PyError ResponseBody :=
  match body with
  | .jobj fields =>
    match dictLookup fields "items" with
    | some (.jarr items) => do
        let ms ← dotmapList items
        return .dotmaps ms
    | some _ => .error .TypeError
    | none => .ok (.dotmap ⟨fields⟩)
  | _ => .error .TypeError

/-- Whether a JSON value is iterable as a Python value: mappings, arrays
and strings are, numbers, booleans and `None` are not. -/
def Json.pyIterable : Json → Bool
  | .jobj _ => true
  | .jarr _ => true
  | .jstr _ => true
  | _ => false

/-- `BaseError.__init__(http_status, errors_payload)` (errors.py): stores
the status and payload, then computes
`"\n".join([str(error) for error in self.errors])`, which iterates the
payload — so constructing `ResourceError`, `RequestError` or `ServerError`
on a non-iterable payload raises `TypeError` instead of producing the
typed error. -/
def raiseBaseError (mk : Nat → Json → PyError) (http_status : Nat)
    (errors : Json) : PyError :=
  if errors.pyIterable then mk http_status errors else .TypeError

/-- `HttpClient.handle_error_response(resp)`: decode the body as JSON
(failure raises the `'Json expected'` exception carrying status code and
body text), then dispatch on the status code; the `BaseError`-derived
constructors iterate the payload and raise `TypeError` on a non-iterable
one. -/
def handle_error_response (resp : HttpResponse) : PyError :=
  match resp.jsonBody with
  | none => .UnknownHttpError (some (resp.status_code, resp.text))
  | some errors =>
    let resp_code := resp.status_code
    if resp_code = 422 then raiseBaseError .ResourceError resp_code errors
    else if resp_code = 420 then .RateLimitError
    else if 400 ≤ resp_code ∧ resp_code < 500 then
      raiseBaseError .RequestError resp_code errors
    else if 500 ≤ resp_code ∧ resp_code < 600 then
      raiseBaseError .ServerError resp_code errors
    else .UnknownHttpError none

/-- The part of `HttpClient.request` that runs before `requests.request`:
URL composition, header construction, and body serialization.  A missing
`container` with a body and `raw` false surfaces as `KeyError` here, so
the transport is never reached. -/
def buildRequest (config : Configuration) (method url : String)
    (params : Option (List (String × String)))
    (body : Option Json) (kwargs : Kwargs) : Except PyError HttpRequest :=
  let url := config.base_url ++ API_VERSION ++ url
  let headers := [("Content-Type", "application/x-www-form-urlencoded"),
                  ("Authorization", "OAuth " ++ config.api_key)]
  let user_headers := kwargs.headers.getD []
  let headers := dictUpdate headers user_headers
  let raw := kwargs.raw.getD false
  match body with
  | none =>
    .ok ⟨method, url, params, none, headers, config.timeout, config.verify_ssl⟩
  | some b =>
    let headers := dictInsert headers "Content-Type" "application/json"
    if raw then
      .ok ⟨method, url, params, some (Json.dumps b), headers,
           config.timeout, config.verify_ssl⟩
    else
      match kwargs.container with
      | none => .error (.KeyError "container")
      | some c =>
        .ok ⟨method, url, params, some (Json.dumps (wrap_envelope c b)), headers,
             config.timeout, config.verify_ssl⟩

/-- `needle` occurs as a substring of `hay` (Python's `in` on strings). -/
def strContainsSub (hay needle : String) : Bool :=
  hay.data.tails.any (fun t => needle.data.isPrefixOf t)

/-- The part of `HttpClient.request` that runs after `requests.request`:
error classification for non-2xx statuses, then JSON decoding and envelope
unwrapping (or `DotMap` conversion in raw mode) when the response
`Content-Type` mentions json, raw content otherwise. -/
def handleResponse (raw : Bool) (resp : HttpResponse) :
    Except PyError (Nat × List (String × String) × ResponseBody) :=
  if ¬ (200 ≤ resp.status_code ∧ resp.status_code < 300) then
    .error (handle_error_response resp)
  else
    match dictLookup resp.headers "Content-Type" with
    | some ct =>
      if strContainsSub ct "json" then
        match resp.jsonBody with
        | none => .error .JSONDecodeError
        | some j => do
          let resp_body ← if raw then (DotMap.ofJson j).map ResponseBody.dotmap
                          else unwrap_envelope j
          return (resp.status_code, resp.headers, resp_body)
      else .ok (resp.status_code, resp.headers, .content resp.text)
    | none => .ok (resp.status_code, resp.headers, .content resp.text)

/-- `HttpClient.request`: build the request, hand it to the transport,
handle the response. -/
def request (config : Configuration) (method url : String)
    (params : Option (List (String × String)))
    (body : Option Json) (kwargs : Kwargs)
    (transport : HttpRequest → HttpResponse) :
    Except PyError (Nat × List (String × String) × ResponseBody) := do
  let req ← buildRequest config method url params body kwargs
  handleResponse (kwargs.raw.getD false) (transport req)

/-- Modelled from the spec: the repository's configuration loading (the
`Configuration` class, not under `src/`) holds a possibly missing API key
and base URL; per spec section 6, "Missing/invalid API key or base URL
must surface as a distinct configuration-error condition before any
network call is attempted". -/
structure RawConfig where
  api_key : Option String
  base_url : Option String
  timeout : Int
  verify_ssl : Bool


/-- Modelled from the spec: validation of the client configuration.  A
missing (absent) or invalid (empty) API key or base URL raises
`ConfigurationError`; otherwise it yields the validated configuration the
HTTP client consumes. -/
def RawConfig.validate (rc : RawConfig) : Except PyError Configuration :=
  match rc.api_key, rc.base_url with
  | some k, some b =>
    if k = "" ∨ b = "" then .error .ConfigurationError
    else .ok ⟨b, k, rc.timeout, rc.verify_ssl⟩
  | _, _ => .error .ConfigurationError

/-- Modelled from the spec: a request operation on a client, validating
the configuration before doing anything else. -/
def clientRequest (rc : RawConfig) (method url : String)
    (params : Option (List (String × String)))
    (body : Option Json) (kwargs : Kwargs)
    (transport : HttpRequest → HttpResponse) :
    Except PyError (Nat × List (String × String) × ResponseBody) := do
  let config ← rc.validate
  request config method url params body kwargs transport

/-! ## Association-list lemmas about the Python dict operations -/

theorem dictLookup_replace_self {α : Type} (d : List (String × α))
    (k : String) (v : α) (h : d.any (fun kv => kv.1 = k) = true) :
    dictLookup (d.map (fun kv => if kv.1 = k then (k, v) else kv)) k = some v := by
  induction d with
  | nil => simp at h
  | cons kv rest ih =>
    by_cases hk : kv.1 = k
    · simp [dictLookup, hk]
    · simp only [List.any_cons, Bool.or_eq_true, decide_eq_true_eq] at h
      rcases h with h | h
      · exact absurd h hk
      · simpa [dictLookup, hk] using ih h

theorem dictLookup_replace_ne {α : Type} (d : List (String × α))
    (k k' : String) (v : α) (hne : k ≠ k') :
    dictLookup (d.map (fun kv => if kv.1 = k then (k, v) else kv)) k'
      = dictLookup d k' := by
  induction d with
  | nil => rfl
  | cons kv rest ih =>
    by_cases hk : kv.1 = k
    · have hnk : ¬ kv.1 = k' := fun hc => hne (hk ▸ hc)
      simp [dictLookup, hk, hne, hnk, ih]
    · by_cases hk' : kv.1 = k'
      · simp [dictLookup, hk, hk', Ne.symm hne]
      · simp [dictLookup, hk, hk', ih]

theorem dictLookup_append_single_self {α : Type} (d : List (String × α))
    (k : String) (v : α) (h : dictLookup d k = none) :
    dictLookup (d ++ [(k, v)]) k = some v := by
  induction d with
  | nil => simp [dictLookup]
  | cons kv rest ih =>
    by_cases hk : kv.1 = k
    · simp [dictLookup, hk] at h
    · simp only [dictLookup, hk, if_neg hk] at h
      simpa [dictLookup, hk] using ih h

theorem dictLookup_append_single_ne {α : Type} (d : List (String × α))
    (k k' : String) (v : α) (hne : k ≠ k') :
    dictLookup (d ++ [(k, v)]) k' = dictLookup d k' := by
  induction d with
  | nil => simp [dictLookup, hne]
  | cons kv rest ih =>
    by_cases hk' : kv.1 = k'
    · simp [dictLookup, hk']
    · simp [dictLookup, hk', ih]

theorem dictLookup_dictInsert_self {α : Type} (d : List (String × α))
    (k : String) (v : α) : dictLookup (dictInsert d k v) k = some v := by
  unfold dictInsert
  split
  case isTrue h => exact dictLookup_replace_self d k v h
  case isFalse h =>
    refine dictLookup_append_single_self d k v ?_
    induction d with
    | nil => rfl
    | cons kv rest ih =>
      simp only [List.any_cons, Bool.or_eq_true, decide_eq_true_eq, not_or] at h
      simpa [dictLookup, h.1] using ih h.2

theorem dictLookup_dictInsert_ne {α : Type} (d : List (String × α))
    (k k' : String) (v : α) (hne : k ≠ k') :
    dictLookup (dictInsert d k v) k' = dictLookup d k' := by
  unfold dictInsert
  split
  case isTrue h => exact dictLookup_replace_ne d k k' v hne
  case isFalse h => exact dictLookup_append_single_ne d k k' v hne

theorem dictLookup_dictUpdate_not_mem {α : Type} (u d : List (String × α))
    (k : String) (hk : k ∉ dictKeys u) :
    dictLookup (dictUpdate d u) k = dictLookup d k := by
  induction u generalizing d with
  | nil => rfl
  | cons kv rest ih =>
    simp only [dictKeys, List.map_cons, List.mem_cons, not_or] at hk
    have step : dictUpdate d (kv :: rest) = dictUpdate (dictInsert d kv.1 kv.2) rest := rfl
    rw [step, ih _ (by simpa [dictKeys] using hk.2),
        dictLookup_dictInsert_ne d kv.1 k kv.2 (fun hc => hk.1 hc.symm)]

theorem dictLookup_dictUpdate_mem {α : Type} (u d : List (String × α))
    (k : String) (v : α) (hnd : (dictKeys u).Nodup)
    (hv : dictLookup u k = some v) :
    dictLookup (dictUpdate d u) k = some v := by
  induction u generalizing d with
  | nil => simp [dictLookup] at hv
  | cons kv rest ih =>
    have step : dictUpdate d (kv :: rest) = dictUpdate (dictInsert d kv.1 kv.2) rest := rfl
    simp only [dictKeys, List.map_cons, List.nodup_cons] at hnd
    by_cases hk : kv.1 = k
    · simp only [dictLookup, hk, if_pos rfl] at hv
      cases hv
      rw [step, dictLookup_dictUpdate_not_mem rest _ k (by simpa [dictKeys, hk] using hnd.1),
          hk, dictLookup_dictInsert_self]
    · simp only [dictLookup, hk, if_neg hk] at hv
      rw [step]
      exact ih _ (by simpa [dictKeys] using hnd.2) hv

theorem dotmapList_objs (items : List Json)
    (h : ∀ j ∈ items, ∃ fs, j = Json.jobj fs) :
    dotmapList items = .ok (items.map (fun j => ⟨j.objFields⟩)) := by
  induction items with
  | nil => rfl
  | cons j rest ih =>
    obtain ⟨fs, rfl⟩ := h j (List.mem_cons_self j rest)
    have hrest := ih (fun j' hj' => h j' (List.mem_cons_of_mem _ hj'))
    simp [dotmapList, DotMap.ofJson, hrest, Json.objFields, Except.bind, Bind.bind,
          pure, Except.pure]

/-! ## Claims -/

/-- C1: For every successful JSON response whose decoded body contains an
`items` key with N elements (each a JSON object, as the envelope convention
produces), `unwrap_envelope` yields an ordered sequence of exactly N
mappings — the i-th mapping carrying exactly the fields, hence the keys, of
the i-th original element — and for every decoded body without an `items`
key it yields exactly one mapping equal to the decoded body. -/
theorem c1_unwrap_envelope (fields : List (String × Json)) :
    (∀ items : List Json, dictLookup fields "items" = some (.jarr items) →
        (∀ j ∈ items, ∃ fs, j = Json.jobj fs) →
        unwrap_envelope (.jobj fields)
            = .ok (.dotmaps (items.map (fun j => ⟨j.objFields⟩))) ∧
          (items.map (fun j => (⟨j.objFields⟩ : DotMap))).length = items.length) ∧
    (dictLookup fields "items" = none →
        unwrap_envelope (.jobj fields) = .ok (.dotmap ⟨fields⟩)) := by
  constructor
  · intro items hlk hobj
    refine ⟨?_, items.length_map _⟩
    simp [unwrap_envelope, hlk, dotmapList_objs items hobj, Except.bind, Bind.bind,
          pure, Except.pure]
  · intro hlk
    simp [unwrap_envelope, hlk]

/-- Witness for C1 at a two-element `items` body and at an `items`-less
body. -/
theorem c1_unwrap_envelope_witness :
    unwrap_envelope
        (.jobj [("items", .jarr [.jobj [("a", .jnum 1)], .jobj [("b", .jnum 2)]])])
      = .ok (.dotmaps [⟨[("a", .jnum 1)]⟩, ⟨[("b", .jnum 2)]⟩]) ∧
    unwrap_envelope (.jobj [("name", .jstr "x")])
      = .ok (.dotmap ⟨[("name", .jstr "x")]⟩) := by
  constructor
  · exact ((c1_unwrap_envelope
        [("items", .jarr [.jobj [("a", .jnum 1)], .jobj [("b", .jnum 2)]])]).1
      [.jobj [("a", .jnum 1)], .jobj [("b", .jnum 2)]] rfl
      (by intro j hj; simp at hj; rcases hj with rfl | rfl
          exacts [⟨_, rfl⟩, ⟨_, rfl⟩])).1
  · exact (c1_unwrap_envelope [("name", .jstr "x")]).2 rfl

/-- C2 counterexample: a 420 response whose body is not JSON-decodable does
not fail with `RateLimitError`; `handle_error_response` calls `resp.json()`
first, so the decode failure raises the generic `'Json expected'` exception
instead. -/
theorem c2_counterexample :
    handleResponse false ⟨420, [], none, "slow down"⟩
        = .error (.UnknownHttpError (some (420, "slow down"))) ∧
    handleResponse false ⟨420, [], none, "slow down"⟩
        ≠ .error .RateLimitError := by
  refine ⟨rfl, fun h => ?_⟩
  have h' : PyError.UnknownHttpError (some (420, "slow down"))
      = PyError.RateLimitError := Except.error.inj h
  exact PyError.noConfusion h'

/-- C2 (amended): for every response with HTTP status 420 whose body is
JSON-decodable, the call fails with `RateLimitError`, which by construction
carries no payload (no status code and no error entries). -/
theorem c2_rate_limit (raw : Bool) (resp : HttpResponse) (errors : Json)
    (hs : resp.status_code = 420) (hj : resp.jsonBody = some errors) :
    handleResponse raw resp = .error PyError.RateLimitError := by
  simp [handleResponse, handle_error_response, hs, hj]

/-- Witness for C2 at a concrete 420 response with an empty JSON object
body. -/
theorem c2_rate_limit_witness :
    handleResponse false ⟨420, [], some (.jobj []), ""⟩
      = .error PyError.RateLimitError :=
  c2_rate_limit false ⟨420, [], some (.jobj []), ""⟩ (.jobj []) rfl rfl

/-- C3 counterexample: a non-2xx response with status outside [400, 600)
whose body IS JSON-decodable (status 302, body `{}`) fails with the bare
`Exception('Unknown HTTP error response')`, which carries neither the
status code nor the response text. -/
theorem c3_counterexample :
    handleResponse false ⟨302, [], some (.jobj []), "Found"⟩
        = .error (.UnknownHttpError none) ∧
    handleResponse false ⟨302, [], some (.jobj []), "Found"⟩
        ≠ .error (.UnknownHttpError (some (302, "Found"))) := by
  refine ⟨rfl, fun h => ?_⟩
  have h' : PyError.UnknownHttpError none
      = PyError.UnknownHttpError (some (302, "Found")) := Except.error.inj h
  exact Option.noConfusion (PyError.UnknownHttpError.inj h')

/-- C3 (amended): every non-2xx response whose body is not JSON-decodable
fails with the generic unknown error carrying the status code and the raw
response text verbatim; a non-2xx response whose status lies outside
[400, 600) but whose body is JSON-decodable fails with the generic unknown
error carrying no data at all. -/
theorem c3_unknown_error (raw : Bool) (resp : HttpResponse) :
    (resp.jsonBody = none →
        ¬ (200 ≤ resp.status_code ∧ resp.status_code < 300) →
        handleResponse raw resp
          = .error (.UnknownHttpError (some (resp.status_code, resp.text)))) ∧
    (∀ errors : Json, resp.jsonBody = some errors →
        ¬ (200 ≤ resp.status_code ∧ resp.status_code < 300) →
        (resp.status_code < 400 ∨ 600 ≤ resp.status_code) →
        handleResponse raw resp = .error (.UnknownHttpError none)) := by
  constructor
  · intro hj hst
    simp [handleResponse, hst, handle_error_response, hj]
  · intro errors hj hst hrange
    have h422 : resp.status_code ≠ 422 := by omega
    have h420 : resp.status_code ≠ 420 := by omega
    have h4 : ¬ (400 ≤ resp.status_code ∧ resp.status_code < 500) := by omega
    have h5 : ¬ (500 ≤ resp.status_code ∧ resp.status_code < 600) := by omega
    simp [handleResponse, hst, handle_error_response, hj, h422, h420, h4, h5]

/-- Witness for C3 at a 500 response with the non-JSON text
`"Internal Error"` and at a 302 response with a JSON body. -/
theorem c3_unknown_error_witness :
    handleResponse false ⟨500, [], none, "Internal Error"⟩
        = .error (.UnknownHttpError (some (500, "Internal Error"))) ∧
    handleResponse false ⟨302, [], some (.jarr []), "Found"⟩
        = .error (.UnknownHttpError none) := by
  constructor
  · exact (c3_unknown_error false ⟨500, [], none, "Internal Error"⟩).1 rfl (by decide)
  · exact (c3_unknown_error false ⟨302, [], some (.jarr []), "Found"⟩).2
      (.jarr []) rfl (by decide) (by decide)

/-- C4 (spec-modelled: configuration loading and its validation are not
under `src/`, only the `ConfigurationError` declaration is): for every
client whose configuration has a missing or invalid API key or base URL,
any request operation fails with `ConfigurationError` regardless of the
transport — i.e. before any network call is attempted. -/
theorem c4_configuration_error (rc : RawConfig) (method url : String)
    (params : Option (List (String × String))) (body : Option Json)
    (kwargs : Kwargs) (transport : HttpRequest → HttpResponse)
    (h : rc.api_key = none ∨ rc.base_url = none
        ∨ rc.api_key = some "" ∨ rc.base_url = some "") :
    clientRequest rc method url params body kwargs transport
      = .error PyError.ConfigurationError := by
  have hv : rc.validate = .error PyError.ConfigurationError := by
    unfold RawConfig.validate
    cases ha : rc.api_key with
    | none => rfl
    | some k =>
      cases hb : rc.base_url with
      | none => rfl
      | some b =>
        rcases h with h | h | h | h
        · simp [ha] at h
        · simp [hb] at h
        · rw [ha] at h
          injection h with h
          subst h
          simp
        · rw [hb] at h
          injection h with h
          subst h
          simp
  simp [clientRequest, hv, Except.bind, Bind.bind]

/-- Witness for C4: a configuration missing its API key fails with
`ConfigurationError` even under a transport that would answer 200. -/
theorem c4_configuration_error_witness :
    clientRequest ⟨none, some "https://api.example.com", 30, true⟩ "get"
        "/components" none none ⟨none, none, none⟩
        (fun _ => ⟨200, [], none, "ok"⟩)
      = .error PyError.ConfigurationError :=
  c4_configuration_error ⟨none, some "https://api.example.com", 30, true⟩
    "get" "/components" none none ⟨none, none, none⟩
    (fun _ => ⟨200, [], none, "ok"⟩) (Or.inl rfl)

/-- C5 counterexample: a 422 response whose body decodes to the JSON
number `5` does not fail with `ResourceError`; `BaseError.__init__`
iterates the payload to build its message, and a number is not iterable,
so the program raises `TypeError` instead. -/
theorem c5_counterexample :
    handleResponse false ⟨422, [], some (.jnum 5), "5"⟩ = .error .TypeError ∧
    handleResponse false ⟨422, [], some (.jnum 5), "5"⟩
        ≠ .error (.ResourceError 422 (.jnum 5)) := by
  refine ⟨rfl, fun h => ?_⟩
  have h' : PyError.TypeError = PyError.ResourceError 422 (.jnum 5) :=
    Except.error.inj h
  exact PyError.noConfusion h'

/-- C5 (amended): for every non-2xx response whose body decodes to an
iterable JSON payload (an object, an array, or a string — what the API's
error envelope produces), status 422 fails with `ResourceError` carrying
status 422 and the decoded payload; any other status in [400, 500) except
420 fails with `RequestError` carrying the status and payload; any status
in [500, 600) fails with `ServerError` carrying the status and payload. -/
theorem c5_error_taxonomy (raw : Bool) (resp : HttpResponse) (errors : Json)
    (hj : resp.jsonBody = some errors) (hit : errors.pyIterable = true) :
    (resp.status_code = 422 →
        handleResponse raw resp = .error (.ResourceError 422 errors)) ∧
    (400 ≤ resp.status_code → resp.status_code < 500 →
        resp.status_code ≠ 420 → resp.status_code ≠ 422 →
        handleResponse raw resp
          = .error (.RequestError resp.status_code errors)) ∧
    (500 ≤ resp.status_code → resp.status_code < 600 →
        handleResponse raw resp
          = .error (.ServerError resp.status_code errors)) := by
  refine ⟨?_, ?_, ?_⟩
  · intro hs
    have hst : ¬ (200 ≤ resp.status_code ∧ resp.status_code < 300) := by omega
    simp [handleResponse, handle_error_response, raiseBaseError, hst, hj, hs, hit]
  · intro h1 h2 h420 h422
    have hst : ¬ (200 ≤ resp.status_code ∧ resp.status_code < 300) := by omega
    have hr : 400 ≤ resp.status_code ∧ resp.status_code < 500 := ⟨h1, h2⟩
    simp [handleResponse, handle_error_response, raiseBaseError, hst, hj,
          h420, h422, hr, hit]
  · intro h1 h2
    have hst : ¬ (200 ≤ resp.status_code ∧ resp.status_code < 300) := by omega
    have h420 : resp.status_code ≠ 420 := by omega
    have h422 : resp.status_code ≠ 422 := by omega
    have h4 : ¬ (400 ≤ resp.status_code ∧ resp.status_code < 500) := by omega
    have h5 : 500 ≤ resp.status_code ∧ resp.status_code < 600 := ⟨h1, h2⟩
    simp [handleResponse, handle_error_response, raiseBaseError, hst, hj,
          h420, h422, h4, h5, hit]

/-- Witness for C5 at statuses 422, 404 and 503 with concrete iterable
error payloads. -/
theorem c5_error_taxonomy_witness :
    handleResponse false ⟨422, [], some (.jarr [.jobj [("code", .jstr "invalid")]]), ""⟩
        = .error (.ResourceError 422 (.jarr [.jobj [("code", .jstr "invalid")]])) ∧
    handleResponse false ⟨404, [], some (.jobj []), ""⟩
        = .error (.RequestError 404 (.jobj [])) ∧
    handleResponse false ⟨503, [], some (.jobj []), ""⟩
        = .error (.ServerError 503 (.jobj [])) := by
  refine ⟨?_, ?_, ?_⟩
  · exact (c5_error_taxonomy false ⟨422, [], some (.jarr [.jobj [("code", .jstr "invalid")]]), ""⟩
      (.jarr [.jobj [("code", .jstr "invalid")]]) rfl rfl).1 rfl
  · exact (c5_error_taxonomy false ⟨404, [], some (.jobj []), ""⟩
      (.jobj []) rfl rfl).2.1 (by decide) (by decide) (by decide) (by decide)
  · exact (c5_error_taxonomy false ⟨503, [], some (.jobj []), ""⟩
      (.jobj []) rfl rfl).2.2 (by decide) (by decide)

/-- C6: for every request with `raw` true, the outgoing body (when
present) is serialized as-is — no container key is consulted or wrapped
around it — and a successful JSON response body is returned as the decoded
structure without envelope unwrapping, for every decoded object body,
including ones containing an `items` key. -/
theorem c6_raw_mode (config : Configuration) (method url : String)
    (params : Option (List (String × String)))
    (hdrs : Option (List (String × String))) (cont : Option String) (b : Json)
    (fields : List (String × Json)) (status : Nat) (text ct : String) :
    (∃ req, buildRequest config method url params (some b) ⟨hdrs, some true, cont⟩
        = .ok req ∧ req.data = some (Json.dumps b)) ∧
    (200 ≤ status → status < 300 → strContainsSub ct "json" = true →
        handleResponse true ⟨status, [("Content-Type", ct)], some (.jobj fields), text⟩
          = .ok (status, [("Content-Type", ct)], .dotmap ⟨fields⟩)) := by
  constructor
  · exact ⟨_, rfl, rfl⟩
  · intro h1 h2 hct
    have hok : 200 ≤ status ∧ status < 300 := ⟨h1, h2⟩
    simp [handleResponse, hok, dictLookup, hct, DotMap.ofJson, Except.map,
          Except.bind, Bind.bind, pure, Except.pure]

/-- Witness for C6: a raw request body is sent unwrapped, and a raw
response whose body contains an `items` key comes back without
unwrapping. -/
theorem c6_raw_mode_witness :
    (∃ req, buildRequest ⟨"https://api.example.com", "key123", 30, true⟩ "post" "/p"
        none (some (.jobj [("name", .jstr "x")])) ⟨none, some true, none⟩
        = .ok req ∧ req.data = some (Json.dumps (.jobj [("name", .jstr "x")]))) ∧
    handleResponse true ⟨200, [("Content-Type", "application/json")],
        some (.jobj [("items", .jarr [.jobj []])]), ""⟩
      = .ok (200, [("Content-Type", "application/json")],
          .dotmap ⟨[("items", .jarr [.jobj []])]⟩) := by
  constructor
  · exact (c6_raw_mode ⟨"https://api.example.com", "key123", 30, true⟩ "post" "/p"
      none none none (.jobj [("name", .jstr "x")]) [] 200 "" "").1
  · exact (c6_raw_mode ⟨"https://api.example.com", "key123", 30, true⟩ "post" "/p"
      none none none (.jobj []) [("items", .jarr [.jobj []])] 200 ""
      "application/json").2 (by decide) (by decide) (by decide)

/-- C7: the envelope wrap of body B under container C is the mapping
\x7bC: B\x7d, the serialized JSON text of that wrapped mapping is exactly
what is placed in the outgoing request body when `raw` is absent (false by
default), and in particular the body \x7b"name": "x"\x7d under container
"component" is serialized as the JSON text of
\x7b"component": \x7b"name": "x"\x7d\x7d. -/
theorem c7_wrap_envelope (config : Configuration) (method url : String)
    (params : Option (List (String × String)))
    (hdrs : Option (List (String × String))) (c : String) (b : Json) :
    wrap_envelope c b = .jobj [(c, b)] ∧
    (∃ req, buildRequest config method url params (some b) ⟨hdrs, none, some c⟩
        = .ok req ∧ req.data = some (Json.dumps (wrap_envelope c b))) ∧
    Json.dumps (wrap_envelope "component" (.jobj [("name", .jstr "x")]))
      = "\x7b\"component\": \x7b\"name\": \"x\"\x7d\x7d" :=
  ⟨rfl, ⟨_, rfl, rfl⟩, rfl⟩

/-- C8: for every request, the URL handed to the transport is the
concatenation of the configured base URL, the fixed `/v1` API version
segment, and the caller-supplied relative path. -/
theorem c8_url_composition (config : Configuration) (method url : String)
    (params : Option (List (String × String))) (body : Option Json)
    (kwargs : Kwargs) (req : HttpRequest)
    (h : buildRequest config method url params body kwargs = .ok req) :
    req.url = config.base_url ++ API_VERSION ++ url ∧ API_VERSION = "/v1" := by
  refine ⟨?_, rfl⟩
  cases body with
  | none =>
    simp only [buildRequest] at h
    cases h
    rfl
  | some b =>
    simp only [buildRequest] at h
    split at h
    · cases h
      rfl
    · split at h
      · cases h
      · cases h
        rfl

/-- Witness for C8: path `/components` with base URL
`https://api.example.com` is issued against
`https://api.example.com/v1/components`. -/
theorem c8_url_composition_witness :
    buildRequest ⟨"https://api.example.com", "key123", 30, true⟩ "get" "/components"
        none none ⟨none, none, none⟩
      = .ok ⟨"get", "https://api.example.com/v1/components", none, none,
          [("Content-Type", "application/x-www-form-urlencoded"),
           ("Authorization", "OAuth key123")], 30, true⟩ ∧
    (⟨"get", "https://api.example.com/v1/components", none, none,
        [("Content-Type", "application/x-www-form-urlencoded"),
         ("Authorization", "OAuth key123")], 30, true⟩ : HttpRequest).url
      = "https://api.example.com" ++ API_VERSION ++ "/components" := by
  refine ⟨rfl, ?_⟩
  exact (c8_url_composition ⟨"https://api.example.com", "key123", 30, true⟩ "get"
      "/components" none none ⟨none, none, none⟩
      ⟨"get", "https://api.example.com/v1/components", none, none,
        [("Content-Type", "application/x-www-form-urlencoded"),
         ("Authorization", "OAuth key123")], 30, true⟩ rfl).1

/-- C9: for every request, the headers start from the defaults
`Content-Type: application/x-www-form-urlencoded` and
`Authorization: OAuth <api_key>` (the fixed `OAuth` scheme string followed
by the configured key), caller-supplied headers are merged in — keys they
do not mention keep their default, keys they mention take the caller's
value — and when a body is supplied `Content-Type` is then set to
`application/json`. -/
theorem c9_headers (config : Configuration) (method url : String)
    (params : Option (List (String × String))) (kwargs : Kwargs)
    (b : Json) (req reqB : HttpRequest) :
    (buildRequest config method url params none kwargs = .ok req →
        req.headers = dictUpdate
            [("Content-Type", "application/x-www-form-urlencoded"),
             ("Authorization", "OAuth " ++ config.api_key)]
            (kwargs.headers.getD []) ∧
        (∀ k, k ∉ dictKeys (kwargs.headers.getD []) →
            dictLookup req.headers k
              = dictLookup
                  [("Content-Type", "application/x-www-form-urlencoded"),
                   ("Authorization", "OAuth " ++ config.api_key)] k) ∧
        ((dictKeys (kwargs.headers.getD [])).Nodup →
            ∀ k v, dictLookup (kwargs.headers.getD []) k = some v →
              dictLookup req.headers k = some v)) ∧
    (buildRequest config method url params (some b) kwargs = .ok reqB →
        reqB.headers = dictInsert (dictUpdate
            [("Content-Type", "application/x-www-form-urlencoded"),
             ("Authorization", "OAuth " ++ config.api_key)]
            (kwargs.headers.getD [])) "Content-Type" "application/json" ∧
        dictLookup reqB.headers "Content-Type" = some "application/json") := by
  constructor
  · intro h
    simp only [buildRequest] at h
    cases h
    refine ⟨rfl, ?_, ?_⟩
    · intro k hk
      exact dictLookup_dictUpdate_not_mem _ _ k hk
    · intro hnd k v hv
      exact dictLookup_dictUpdate_mem _ _ k v hnd hv
  · intro h
    simp only [buildRequest] at h
    split at h
    · cases h
      exact ⟨rfl, dictLookup_dictInsert_self _ _ _⟩
    · split at h
      · cases h
      · cases h
        exact ⟨rfl, dictLookup_dictInsert_self _ _ _⟩

/-- Witness for C9: a caller-supplied `Content-Type: text/csv` overrides
the default, an extra header is appended, `Authorization` keeps its
default, and supplying a body forces `Content-Type: application/json`. -/
theorem c9_headers_witness :
    buildRequest ⟨"https://api.example.com", "key123", 30, true⟩ "get" "/c" none none
        ⟨some [("Content-Type", "text/csv"), ("X-Extra", "1")], none, none⟩
      = .ok ⟨"get", "https://api.example.com/v1/c", none, none,
          [("Content-Type", "text/csv"), ("Authorization", "OAuth key123"),
           ("X-Extra", "1")], 30, true⟩ ∧
    dictLookup [("Content-Type", "text/csv"), ("Authorization", "OAuth key123"),
        ("X-Extra", "1")] "Content-Type" = some "text/csv" ∧
    dictLookup [("Content-Type", "text/csv"), ("Authorization", "OAuth key123"),
        ("X-Extra", "1")] "Authorization" = some "OAuth key123" ∧
    dictLookup [("Content-Type", "text/csv"), ("Authorization", "OAuth key123"),
        ("X-Extra", "1")] "X-Extra" = some "1" ∧
    buildRequest ⟨"https://api.example.com", "key123", 30, true⟩ "post" "/c" none
        (some (.jobj [("name", .jstr "x")]))
        ⟨some [("Content-Type", "text/csv"), ("X-Extra", "1")], none, some "component"⟩
      = .ok ⟨"post", "https://api.example.com/v1/c", none,
          some (Json.dumps (wrap_envelope "component" (.jobj [("name", .jstr "x")]))),
          [("Content-Type", "application/json"), ("Authorization", "OAuth key123"),
           ("X-Extra", "1")], 30, true⟩ ∧
    dictLookup [("Content-Type", "application/json"), ("Authorization", "OAuth key123"),
        ("X-Extra", "1")] "Content-Type" = some "application/json" := by
  have H := (c9_headers ⟨"https://api.example.com", "key123", 30, true⟩ "get" "/c" none
      ⟨some [("Content-Type", "text/csv"), ("X-Extra", "1")], none, none⟩
      (.jobj [("name", .jstr "x")])
      ⟨"get", "https://api.example.com/v1/c", none, none,
        [("Content-Type", "text/csv"), ("Authorization", "OAuth key123"),
         ("X-Extra", "1")], 30, true⟩
      ⟨"get", "https://api.example.com/v1/c", none, none,
        [("Content-Type", "text/csv"), ("Authorization", "OAuth key123"),
         ("X-Extra", "1")], 30, true⟩).1 rfl
  have H2 := (c9_headers ⟨"https://api.example.com", "key123", 30, true⟩ "post" "/c" none
      ⟨some [("Content-Type", "text/csv"), ("X-Extra", "1")], none, some "component"⟩
      (.jobj [("name", .jstr "x")])
      ⟨"post", "https://api.example.com/v1/c", none,
        some (Json.dumps (wrap_envelope "component" (.jobj [("name", .jstr "x")]))),
        [("Content-Type", "application/json"), ("Authorization", "OAuth key123"),
         ("X-Extra", "1")], 30, true⟩
      ⟨"post", "https://api.example.com/v1/c", none,
        some (Json.dumps (wrap_envelope "component" (.jobj [("name", .jstr "x")]))),
        [("Content-Type", "application/json"), ("Authorization", "OAuth key123"),
         ("X-Extra", "1")], 30, true⟩).2 rfl
  refine ⟨rfl, ?_, ?_, ?_, rfl, H2.2⟩
  · exact H.2.2 (by decide) "Content-Type" "text/csv" rfl
  · exact (H.2.1 "Authorization" (by decide)).trans rfl
  · exact H.2.2 (by decide) "X-Extra" "1" rfl

/-- C10: for every request with a non-`None` body, `raw` false or absent,
and no `container` option, the `kwargs['container']` lookup raises
`KeyError` while the outgoing body is being built, so the operation fails
identically under every transport — no network request is issued. -/
theorem c10_missing_container (config : Configuration) (method url : String)
    (params : Option (List (String × String))) (b : Json)
    (hdrs : Option (List (String × String))) (r : Option Bool)
    (hr : r = none ∨ r = some false)
    (transport : HttpRequest → HttpResponse) :
    buildRequest config method url params (some b) ⟨hdrs, r, none⟩
        = .error (.KeyError "container") ∧
    request config method url params (some b) ⟨hdrs, r, none⟩ transport
        = .error (.KeyError "container") := by
  have hb : buildRequest config method url params (some b) ⟨hdrs, r, none⟩
      = .error (.KeyError "container") := by
    rcases hr with rfl | rfl <;> rfl
  exact ⟨hb, by simp [request, hb, Except.bind, Bind.bind]⟩

/-- Witness for C10: posting a body with no `container` option fails with
`KeyError` even under a transport that would answer 200. -/
theorem c10_missing_container_witness :
    request ⟨"https://api.example.com", "key123", 30, true⟩ "post" "/components" none
        (some (.jobj [("name", .jstr "x")])) ⟨none, none, none⟩
        (fun _ => ⟨200, [], none, "ok"⟩)
      = .error (.KeyError "container") :=
  (c10_missing_container ⟨"https://api.example.com", "key123", 30, true⟩ "post"
      "/components" none (.jobj [("name", .jstr "x")]) none none (Or.inl rfl)
      (fun _ => ⟨200, [], none, "ok"⟩)).2

end StatusPage
